import Mathlib

/-!
Shallow embedding of `src/lab2/run.py`, a paginated CVE crawler.

External effects are modelled by oracle functions:
* a listing-fetch oracle `String → ListingFetch` giving, for each URL, the
  outcome of `requests.get` on a listing page (exception, or a status code
  plus the parsed page content);
* a detail-fetch oracle `String → DetailFetch` giving the outcome of the
  secondary enrichment fetch in `get_cve_type`.

BeautifulSoup lookups are modelled by `Option`-valued fields: `none` means
the element is absent, in which case the Python attribute access
(`.text`, `["href"]`, `.find`) raises and is caught by the nearest
`try/except`.  The `while True` page loop of `fetch_and_save_cve` is
modelled with explicit fuel, where one unit of fuel is consumed per
listing-page fetch, so "terminates within k fetches" is "returns `some`
with fuel k".
-/

/-- The module-level constant `BASE_URL`. -/
def BASE_URL : String := "https://www.cvedetails.com"

/-- The module-level dict `month_mapping`; `none` models a `KeyError`. -/
def month_mapping : String → Option String
  | "January" => some "01"
  | "February" => some "02"
  | "March" => some "03"
  | "April" => some "04"
  | "May" => some "05"
  | "June" => some "06"
  | "July" => some "07"
  | "August" => some "08"
  | "September" => some "09"
  | "October" => some "10"
  | "November" => some "11"
  | "December" => some "12"
  | _ => none

/-- The `years` list: `2015` to `2025` as strings. -/
def years : List String := (List.range 11).map (fun i => toString (2015 + i))

/-- The `months` list: the keys of `month_mapping` in insertion order. -/
def months : List String :=
  ["January", "February", "March", "April", "May", "June",
   "July", "August", "September", "October", "November", "December"]

/-- One parsed detail page, as seen by `get_cve_type`: the div with id
`cve_catslabelsnotes_div` is either absent (`none`) or present, and when
present its `span.ssc-vuln-cat` child carries a stripped text or is
absent. -/
structure DetailDiv where
  span : Option String
deriving DecidableEq, Repr

/-- Content of a detail page response. -/
structure DetailPage where
  container : Option DetailDiv
deriving DecidableEq, Repr

/-- Outcome of `requests.get` on a detail URL: `exn` models a raised
network exception, `resp` a response with its status code and parsed
content. -/
inductive DetailFetch where
  | exn : DetailFetch
  | resp : Nat → DetailPage → DetailFetch
deriving DecidableEq, Repr

/-- One listing entry (a div with `data-tsvfield="cveinfo"`).  Each field
holds the stripped text of the corresponding child element, or `none`
when that element is absent (so the Python access raises). `linkHref`
is the `href` of the first anchor of the entry. -/
structure Entry where
  cveId : Option String
  linkHref : Option String
  summary : Option String
  maxCvss : Option String
  epssScore : Option String
  publishDate : Option String
  updateDate : Option String
deriving DecidableEq, Repr

/-- One parsed listing page: the `cveinfo` entries found by `find_all`,
and whether an anchor with text `Next` is present. -/
structure ListingPage where
  entries : List Entry
  hasNextLink : Bool
deriving DecidableEq, Repr

/-- Outcome of `requests.get` on a listing URL. -/
inductive ListingFetch where
  | exn : ListingFetch
  | resp : Nat → ListingPage → ListingFetch
deriving DecidableEq, Repr

/-- The final record dict built in `process_single_page`.  The Python
dict literal always carries exactly these seven keys, in this insertion
order: CVE ID, CVE_type, Description, Max CVSS, EPSS Score, Published,
Updated. -/
structure Record where
  cveId : String
  cveType : String
  description : String
  maxCvss : String
  epssScore : String
  published : String
  updated : String
deriving DecidableEq, Repr

/-- The keys of every record dict, in insertion order; this is what
`records[0].keys()` yields in `fetch_and_save_cve`. -/
def recordKeys : List String :=
  ["CVE ID", "CVE_type", "Description", "Max CVSS", "EPSS Score",
   "Published", "Updated"]

/-- The values of a record dict in key order; this is the CSV row that
`csv.DictWriter.writerows` emits for the record. -/
def recordVals (r : Record) : List String :=
  [r.cveId, r.cveType, r.description, r.maxCvss, r.epssScore,
   r.published, r.updated]

/-- The function `get_cve_type`: fetch the detail URL; on status 200 look
up the container div and its category span.  A raised exception (network
failure, or attribute access on a missing container div) is caught and
falls through to the final `return "N/A"`; a missing span or a non-200
status also yields `"N/A"`. -/
def get_cve_type (detail : String → DetailFetch) (url : String) : String :=
  match detail url with
  | .exn => "N/A"
  | .resp code page =>
      if code = 200 then
        match page.container with
        | none => "N/A"
        | some d =>
            match d.span with
            | some t => t
            | none => "N/A"
      else "N/A"

/-- Extraction of one sub-field of an entry: `element.text.strip()` on a
present element yields its text, on an absent element the attribute
access raises (modelled by `Except.error`). -/
def extractField : Option String → Except Unit String
  | some s => Except.ok s
  | none => Except.error ()

/-- The listing-page URL built in `process_single_page` from the module
base URL and the call parameters; the `url` argument of the function is
not used. -/
def fullUrl (year month_num month_text page_number : String) : String :=
  BASE_URL ++ "/vulnerability-list/year-" ++ year ++ "/month-" ++ month_num
    ++ "/" ++ month_text ++ ".html?page=" ++ page_number

/-- The per-entry body of the extraction loop in `process_single_page`:
extract the seven fields of one entry, calling `get_cve_type` on the
entry link for the category.  Any missing sub-field raises, which
propagates to the page-level handler (`Except.error`). -/
def extractRecord (detail : String → DetailFetch) (e : Entry) :
    Except Unit Record := do
  let cveId ← extractField e.cveId
  let href ← extractField e.linkHref
  let cveType := get_cve_type detail (BASE_URL ++ href)
  let description ← extractField e.summary
  let maxCvss ← extractField e.maxCvss
  let epssScore ← extractField e.epssScore
  let published ← extractField e.publishDate
  let updated ← extractField e.updateDate
  return { cveId, cveType, description, maxCvss, epssScore, published,
           updated }

/-- The extraction loop over all entries of a page: builds the record
list entry by entry; the first raising entry aborts the loop and the
exception reaches the page-level handler, discarding the partial list. -/
def extractAll (detail : String → DetailFetch) :
    List Entry → Except Unit (List Record)
  | [] => Except.ok []
  | e :: es =>
      match extractRecord detail e with
      | Except.error u => Except.error u
      | Except.ok r =>
          match extractAll detail es with
          | Except.error u => Except.error u
          | Except.ok rs => Except.ok (r :: rs)

/-- The function `process_single_page(url, month_text, month_num, year,
page_number)`.  It builds the request URL from `BASE_URL` and the
parameters (never from `url`), fetches it, and returns
`(records, has_next_page)`.  A non-200 status, an empty entry list, a
fetch exception, or an extraction exception all yield `([], false)`
through the early returns and the enclosing `try/except`. -/
def process_single_page (listing : String → ListingFetch)
    (detail : String → DetailFetch)
    (url month_text month_num year page_number : String) :
    List Record × Bool :=
  match listing (fullUrl year month_num month_text page_number) with
  | .exn => ([], false)
  | .resp code page =>
      if code = 200 then
        if page.entries = [] then ([], false)
        else
          match extractAll detail page.entries with
          | Except.error _ => ([], false)
          | Except.ok recs => (recs, page.hasNextLink)
      else ([], false)

/-- The `while True` loop of `fetch_and_save_cve`, with explicit fuel:
each iteration performs exactly one listing-page fetch and consumes one
unit of fuel, so a `some` result with fuel `k` means the loop finished
within `k` fetches; `none` means the fuel was exhausted.  The loop
breaks with the accumulated records when a page yields no records, and
after accumulating the current page when `has_next_page` is false. -/
def loop (listing : String → ListingFetch) (detail : String → DetailFetch)
    (month mn year : String) :
    Nat → Nat → List Record → Option (List Record)
  | 0, _, _ => none
  | fuel + 1, page, acc =>
      let pr := process_single_page listing detail BASE_URL month mn year
        (toString page)
      if pr.1 = [] then some acc
      else if pr.2 = false then some (acc ++ pr.1)
      else loop listing detail month mn year fuel (page + 1) (acc ++ pr.1)

/-- The output artifact written by the sink part of
`fetch_and_save_cve`: directory `storage`, file name
`CVE_{year}_{month}.csv`, a header row of the record keys, and one row
of values per record.  The file is opened with `encoding="utf-8"` and
written by `csv.DictWriter` with its default comma delimiter. -/
structure CsvFile where
  dir : String
  filename : String
  header : List String
  rows : List (List String)
deriving DecidableEq, Repr

/-- The export step of `fetch_and_save_cve`: when `records` is empty no
file is written (`none`); otherwise the CSV file is written with header
`records[0].keys()` and one row per record. -/
def writeCsv (year month : String) (records : List Record) :
    Option CsvFile :=
  match records with
  | [] => none
  | _ :: _ =>
      some { dir := "storage",
             filename := "CVE_" ++ year ++ "_" ++ month ++ ".csv",
             header := recordKeys,
             rows := records.map recordVals }

/-- The function `fetch_and_save_cve(year, month)`: run the page loop
from page 1 with an empty accumulator, then export.  The outer `none`
models a non-terminating loop (fuel exhausted) or a `KeyError` on
`month_mapping[month]`; `some none` is a completed run that wrote no
file; `some (some f)` is a completed run that wrote `f`. -/
def fetch_and_save_cve (listing : String → ListingFetch)
    (detail : String → DetailFetch) (fuel : Nat) (year month : String) :
    Option (Option CsvFile) :=
  match month_mapping month with
  | none => none
  | some mn =>
      match loop listing detail month mn year fuel 1 [] with
      | none => none
      | some records => some (writeCsv year month records)

/-- Abbreviation for the result of `process_single_page` on page `p` of
a unit, as called from the loop (with `BASE_URL` as the unused `url`
argument and `str(page_number)` as the page string). -/
def pageOut (listing : String → ListingFetch)
    (detail : String → DetailFetch) (month mn year : String) (p : Nat) :
    List Record × Bool :=
  process_single_page listing detail BASE_URL month mn year (toString p)

/-- Fragment A of the (2024, March) scenario: all sub-fields present,
detail page carries the category label. -/
def entryA : Entry :=
  { cveId := some "CVE-2024-1001", linkHref := some "/cve/CVE-2024-1001/",
    summary := some "summary A", maxCvss := some "9.8",
    epssScore := some "0.97", publishDate := some "2024-03-01",
    updateDate := some "2024-03-05" }

/-- Fragment B of the scenario: all sub-fields present, the enrichment
fetch fails at transport level. -/
def entryB : Entry :=
  { cveId := some "CVE-2024-1002", linkHref := some "/cve/CVE-2024-1002/",
    summary := some "summary B", maxCvss := some "7.5",
    epssScore := some "0.40", publishDate := some "2024-03-02",
    updateDate := some "2024-03-06" }

/-- Fragment C of the scenario: all sub-fields present, the detail page
has the container div but no category label span. -/
def entryC : Entry :=
  { cveId := some "CVE-2024-1003", linkHref := some "/cve/CVE-2024-1003/",
    summary := some "summary C", maxCvss := some "5.0",
    epssScore := some "0.10", publishDate := some "2024-03-03",
    updateDate := some "2024-03-07" }

/-- Detail-fetch oracle of the scenario: fragment A resolves to
"Execute Code", fragment B hits a transport failure, fragment C finds
the container but no label. -/
def scenarioDetail : String → DetailFetch := fun u =>
  if u = BASE_URL ++ "/cve/CVE-2024-1001/" then
    DetailFetch.resp 200 ⟨some ⟨some "Execute Code"⟩⟩
  else if u = BASE_URL ++ "/cve/CVE-2024-1002/" then
    DetailFetch.exn
  else if u = BASE_URL ++ "/cve/CVE-2024-1003/" then
    DetailFetch.resp 200 ⟨some ⟨none⟩⟩
  else DetailFetch.exn

/-- Listing-fetch oracle of the scenario: page 1 of March 2024 has the
two fragments A and B and a Next link, page 2 has fragment C and no
Next link; every other URL, page 3 of the unit included, answers with
the arbitrary oracle `other`. -/
def scenarioListing (other : String → ListingFetch) :
    String → ListingFetch := fun u =>
  if u = fullUrl "2024" "03" "March" "1" then
    ListingFetch.resp 200 ⟨[entryA, entryB], true⟩
  else if u = fullUrl "2024" "03" "March" "2" then
    ListingFetch.resp 200 ⟨[entryC], false⟩
  else other u

/-- Entry whose summary element is missing: the Python lookup
`entry.find("div", summary)` yields None and the `.text` access raises,
reaching the page-level exception handler. -/
def entryNoSummary : Entry :=
  { cveId := some "CVE-2024-2001", linkHref := some "/cve/CVE-2024-2001/",
    summary := none, maxCvss := some "4.3", epssScore := some "0.01",
    publishDate := some "2024-03-04", updateDate := some "2024-03-08" }

/-- Listing oracle for the same-page-retention scenario: page 1 of March
2024 holds the valid `entryA` with a Next link, page 2 holds the valid
`entryC` followed by the defective `entryNoSummary`. -/
def c3Listing : String → ListingFetch := fun u =>
  if u = fullUrl "2024" "03" "March" "1" then
    ListingFetch.resp 200 ⟨[entryA], true⟩
  else if u = fullUrl "2024" "03" "March" "2" then
    ListingFetch.resp 200 ⟨[entryC, entryNoSummary], true⟩
  else ListingFetch.exn

/-- Listing oracle for the transport-error scenario: page 1 of March
2024 holds `entryA` with a Next link; every other fetch, page 2
included, raises a network exception. -/
def c5Listing : String → ListingFetch := fun u =>
  if u = fullUrl "2024" "03" "March" "1" then
    ListingFetch.resp 200 ⟨[entryA], true⟩
  else ListingFetch.exn

/-- A sample fully-built record, used for concrete sink runs. -/
def sampleRecord : Record :=
  { cveId := "CVE-2024-1001", cveType := "Execute Code",
    description := "summary A", maxCvss := "9.8", epssScore := "0.97",
    published := "2024-03-01", updated := "2024-03-05" }

/-- The artifact that `writeCsv` produces for `[sampleRecord]` in March
2024; used to exercise the sink lemmas on a concrete input. -/
def sampleCsv : CsvFile :=
  { dir := "storage", filename := "CVE_2024_March.csv",
    header := recordKeys, rows := [recordVals sampleRecord] }

/-- C1: in the (2024, March) scenario the worker finishes within two
listing fetches, so page 3 is never requested, and for every possible
response at the other URLs it writes exactly three records under key
`2024_March`, with categories Execute Code, N/A, N/A in fragment
order.  The result is the same for any amount of fuel beyond the two
fetches, so the loop genuinely stops at page 2. -/
theorem C1_march_2024_scenario (other : String → ListingFetch)
    (fuel : Nat) :
    fetch_and_save_cve (scenarioListing other) scenarioDetail (fuel + 2)
      "2024" "March" = some (some
        { dir := "storage", filename := "CVE_2024_March.csv",
          header := recordKeys,
          rows := [["CVE-2024-1001", "Execute Code", "summary A", "9.8",
                    "0.97", "2024-03-01", "2024-03-05"],
                   ["CVE-2024-1002", "N/A", "summary B", "7.5", "0.40",
                    "2024-03-02", "2024-03-06"],
                   ["CVE-2024-1003", "N/A", "summary C", "5.0", "0.10",
                    "2024-03-03", "2024-03-07"]] }) := rfl

/-- Helper: one unfolding step of the page loop, phrased through
`pageOut`. -/
theorem loop_succ (listing : String → ListingFetch)
    (detail : String → DetailFetch) (month mn year : String)
    (fuel page : Nat) (acc : List Record) :
    loop listing detail month mn year (fuel + 1) page acc =
      if (pageOut listing detail month mn year page).1 = [] then some acc
      else if (pageOut listing detail month mn year page).2 = false then
        some (acc ++ (pageOut listing detail month mn year page).1)
      else loop listing detail month mn year fuel (page + 1)
        (acc ++ (pageOut listing detail month mn year page).1) := rfl

/-- Helper: a listing fetch that raises or answers with a non-200 status
makes `process_single_page` return `([], false)` through the early
return and the exception handler. -/
theorem page_transport_error (listing : String → ListingFetch)
    (detail : String → DetailFetch)
    (url month_text month_num year page_number : String)
    (h : listing (fullUrl year month_num month_text page_number)
        = ListingFetch.exn
      ∨ ∃ code pg, listing (fullUrl year month_num month_text page_number)
          = ListingFetch.resp code pg ∧ code ≠ 200) :
    process_single_page listing detail url month_text month_num year
      page_number = ([], false) := by
  unfold process_single_page
  rcases h with h | ⟨code, pg, h, hc⟩
  · rw [h]
  · rw [h]
    simp [hc]

/-- Helper: when the extraction loop raises on some entry of a
successfully fetched page, `process_single_page` returns `([], false)`
through the page-level exception handler, discarding every record of
the page. -/
theorem page_extract_error (listing : String → ListingFetch)
    (detail : String → DetailFetch)
    (url month_text month_num year page_number : String)
    (pg : ListingPage)
    (hfetch : listing (fullUrl year month_num month_text page_number)
      = ListingFetch.resp 200 pg)
    (hex : extractAll detail pg.entries = Except.error ()) :
    process_single_page listing detail url month_text month_num year
      page_number = ([], false) := by
  unfold process_single_page
  rw [hfetch]
  by_cases hpe : pg.entries = []
  · simp [hpe]
  · simp [hpe, hex]

/-- Helper: every record of a successful extraction run comes from a
full seven-field extraction of one of the entries. -/
theorem mem_extractAll (detail : String → DetailFetch) :
    ∀ (es : List Entry) (rs : List Record) (r : Record),
      extractAll detail es = Except.ok rs → r ∈ rs →
      ∃ e, e ∈ es ∧ extractRecord detail e = Except.ok r := by
  intro es
  induction es with
  | nil =>
      intro rs r h hr
      unfold extractAll at h
      injection h with h
      subst h
      simp at hr
  | cons e es ih =>
      intro rs r h hr
      unfold extractAll at h
      cases he : extractRecord detail e with
      | error u => rw [he] at h; cases h
      | ok r0 =>
          rw [he] at h
          cases hes : extractAll detail es with
          | error u => rw [hes] at h; cases h
          | ok rs0 =>
              rw [hes] at h
              injection h with h
              subst h
              rcases List.mem_cons.mp hr with hr0 | hrm
              · exact ⟨e, List.mem_cons_self e es, hr0 ▸ he⟩
              · rcases ih rs0 r hes hrm with ⟨e1, he1, hex1⟩
                exact ⟨e1, List.mem_cons_of_mem e he1, hex1⟩

/-- Helper: running the page loop over `k` consecutive pages that return
records and signal a next page, followed by a page returning no records,
appends the records of the good pages, in page order, to the
accumulator.  Fuel `k + fuel + 1` suffices: exactly `k + 1` listing
fetches happen. -/
theorem loop_run (listing : String → ListingFetch)
    (detail : String → DetailFetch) (month mn year : String) :
    ∀ (k fuel p : Nat) (acc : List Record),
      (∀ i, i < k → (pageOut listing detail month mn year (p + i)).1 ≠ []
        ∧ (pageOut listing detail month mn year (p + i)).2 = true) →
      (pageOut listing detail month mn year (p + k)).1 = [] →
      loop listing detail month mn year (k + (fuel + 1)) p acc
        = some (acc ++ ((List.range k).map
            (fun i => (pageOut listing detail month mn year (p + i)).1)).flatten)
    := by
  intro k
  induction k with
  | zero =>
      intro fuel p acc hgood hempty
      rw [Nat.zero_add, loop_succ]
      rw [if_pos (by simpa using hempty)]
      simp
  | succ k ih =>
      intro fuel p acc hgood hempty
      have h0 := hgood 0 (Nat.succ_pos k)
      rw [Nat.add_zero] at h0
      rw [show k + 1 + (fuel + 1) = (k + (fuel + 1)) + 1 by omega, loop_succ]
      rw [if_neg h0.1, if_neg (by simp [h0.2])]
      have harg : ∀ i : Nat, p + 1 + i = p + (i + 1) := fun i => by omega
      have hgood1 : ∀ i, i < k →
          (pageOut listing detail month mn year (p + 1 + i)).1 ≠ []
          ∧ (pageOut listing detail month mn year (p + 1 + i)).2 = true := by
        intro i hi
        rw [harg i]
        exact hgood (i + 1) (by omega)
      have hempty1 :
          (pageOut listing detail month mn year (p + 1 + k)).1 = [] := by
        rw [harg k]
        exact hempty
      rw [ih fuel (p + 1) (acc ++ (pageOut listing detail month mn year p).1)
        hgood1 hempty1]
      simp only [harg, List.range_succ_eq_map, List.map_cons, List.map_map,
        List.flatten_cons, Nat.add_zero, Function.comp_def, Nat.succ_eq_add_one,
        List.append_assoc]

/-- Helper: if some page at offset `k` from the current one returns no
records, the loop terminates within `k + 1` further fetches, whatever
the continuation signals of the pages in between say. -/
theorem loop_term (listing : String → ListingFetch)
    (detail : String → DetailFetch) (month mn year : String) :
    ∀ (k fuel p : Nat) (acc : List Record),
      (pageOut listing detail month mn year (p + k)).1 = [] →
      ∃ rs, loop listing detail month mn year (k + (fuel + 1)) p acc
        = some rs := by
  intro k
  induction k with
  | zero =>
      intro fuel p acc hempty
      rw [Nat.add_zero] at hempty
      exact ⟨acc, by rw [Nat.zero_add, loop_succ, if_pos hempty]⟩
  | succ k ih =>
      intro fuel p acc hempty
      rw [show k + 1 + (fuel + 1) = (k + (fuel + 1)) + 1 by omega, loop_succ]
      by_cases h1 : (pageOut listing detail month mn year p).1 = []
      · exact ⟨acc, by rw [if_pos h1]⟩
      · by_cases h2 : (pageOut listing detail month mn year p).2 = false
        · exact ⟨acc ++ (pageOut listing detail month mn year p).1,
            by rw [if_neg h1, if_pos h2]⟩
        · obtain ⟨rs, hrs⟩ := ih fuel (p + 1)
            (acc ++ (pageOut listing detail month mn year p).1)
            (by rw [show p + 1 + k = p + (k + 1) by omega]; exact hempty)
          exact ⟨rs, by rw [if_neg h1, if_neg h2]; exact hrs⟩

/-- Helper: `fetch_and_save_cve` unfolded past the month lookup. -/
theorem fetch_eq (listing : String → ListingFetch)
    (detail : String → DetailFetch) (fuel : Nat) (year month mn : String)
    (hm : month_mapping month = some mn) :
    fetch_and_save_cve listing detail fuel year month =
      match loop listing detail month mn year fuel 1 [] with
      | none => none
      | some records => some (writeCsv year month records) := by
  unfold fetch_and_save_cve
  rw [hm]

/-- C2 counterexample: a listing page holding the valid `entryA` and
the entry `entryNoSummary`, whose summary element is missing.  The
claim predicts two records for the page, with `entryNoSummary` carrying
empty-string values for its missing fields; the code instead hits the
page-level exception handler and returns no records at all. -/
theorem C2_counterexample :
    process_single_page
      (fun _ => ListingFetch.resp 200 ⟨[entryA, entryNoSummary], true⟩)
      scenarioDetail BASE_URL "March" "03" "2024" "1" = ([], false) := rfl

/-- C2 (amended): an entry with a missing expected sub-field is not
degraded to empty-string field values; the extraction exception reaches
the page-level handler and `process_single_page` returns `([], false)`,
discarding every entry of the page. -/
theorem C2_missing_subfield_fails_page (listing : String → ListingFetch)
    (detail : String → DetailFetch)
    (url month_text month_num year page_number : String)
    (pg : ListingPage)
    (hfetch : listing (fullUrl year month_num month_text page_number)
      = ListingFetch.resp 200 pg)
    (hex : extractAll detail pg.entries = Except.error ()) :
    process_single_page listing detail url month_text month_num year
      page_number = ([], false) :=
  page_extract_error listing detail url month_text month_num year
    page_number pg hfetch hex

/-- Witness for C2 (amended) on a concrete page holding only the
defective entry. -/
theorem C2_missing_subfield_fails_page_witness :
    process_single_page
      (fun _ => ListingFetch.resp 200 ⟨[entryNoSummary], true⟩)
      scenarioDetail BASE_URL "March" "03" "2024" "1" = ([], false) :=
  C2_missing_subfield_fails_page
    (fun _ => ListingFetch.resp 200 ⟨[entryNoSummary], true⟩)
    scenarioDetail BASE_URL "March" "03" "2024" "1"
    ⟨[entryNoSummary], true⟩ rfl rfl

/-- C3 counterexample: page 1 of the unit yields the `entryA` record,
page 2 holds the valid `entryC` followed by the defective
`entryNoSummary`.  The claim predicts that the `entryC` record,
accumulated earlier on the same page as the failing entry, still
appears in the unit output; the code discards the whole page, and the
written file holds only the page-1 record. -/
theorem C3_counterexample :
    fetch_and_save_cve c3Listing scenarioDetail 2 "2024" "March"
      = some (some
        { dir := "storage", filename := "CVE_2024_March.csv",
          header := recordKeys,
          rows := [["CVE-2024-1001", "Execute Code", "summary A", "9.8",
                    "0.97", "2024-03-01", "2024-03-05"]] }) := rfl

/-- C3 (amended): when a field-extraction exception fires on an entry of
the current page, the loop returns exactly the records accumulated from
the prior pages of the unit, which the worker then writes; the records
of the failing page itself, those accumulated before the failing entry
included, are discarded and the page loop stops. -/
theorem C3_prior_pages_survive_extraction_error
    (listing : String → ListingFetch) (detail : String → DetailFetch)
    (month mn year : String) (fuel page : Nat) (acc : List Record)
    (pg : ListingPage)
    (hfetch : listing (fullUrl year mn month (toString page))
      = ListingFetch.resp 200 pg)
    (hex : extractAll detail pg.entries = Except.error ()) :
    loop listing detail month mn year (fuel + 1) page acc = some acc := by
  have h : (pageOut listing detail month mn year page).1 = [] := by
    unfold pageOut
    rw [page_extract_error listing detail BASE_URL month mn year
      (toString page) pg hfetch hex]
  rw [loop_succ, if_pos h]

/-- Witness for C3 (amended): the unit already accumulated
`sampleRecord` from page 1 and page 2 fails on `entryNoSummary`; the
loop returns exactly the prior record. -/
theorem C3_prior_pages_survive_witness :
    loop c3Listing scenarioDetail "March" "03" "2024" 1 2 [sampleRecord]
      = some [sampleRecord] :=
  C3_prior_pages_survive_extraction_error c3Listing scenarioDetail
    "March" "03" "2024" 0 2 [sampleRecord]
    ⟨[entryC, entryNoSummary], true⟩ rfl rfl

/-- C4: every record returned by `process_single_page` is the result of
a complete seven-field extraction of some entry: no partially built
record is ever appended to the accumulator or reaches the sink. -/
theorem C4_no_partial_records (listing : String → ListingFetch)
    (detail : String → DetailFetch)
    (url month_text month_num year page_number : String) (r : Record)
    (hr : r ∈ (process_single_page listing detail url month_text
      month_num year page_number).1) :
    ∃ e, extractRecord detail e = Except.ok r := by
  unfold process_single_page at hr
  split at hr
  · simp at hr
  · rename_i code page hresp
    split at hr
    · split at hr
      · simp at hr
      · split at hr
        · simp at hr
        · rename_i rs heq
          obtain ⟨e, _, hex⟩ :=
            mem_extractAll detail page.entries rs r heq (by simpa using hr)
          exact ⟨e, hex⟩
    · simp at hr

/-- Witness for C4: the fragment-C record of the scenario comes from a
full extraction of `entryC`. -/
theorem C4_no_partial_records_witness :
    ∃ e, extractRecord scenarioDetail e = Except.ok
      { cveId := "CVE-2024-1003", cveType := "N/A",
        description := "summary C", maxCvss := "5.0", epssScore := "0.10",
        published := "2024-03-03", updated := "2024-03-07" } :=
  C4_no_partial_records (scenarioListing fun _ => ListingFetch.exn)
    scenarioDetail BASE_URL "March" "03" "2024" "2" _ (by decide)

/-- C5: when pages 1..k of a unit return records and signal a next page
and the listing fetch of page k+1 fails at transport level (raised
network exception or non-2xx status), the page loop stops there — k+1
listing fetches in total — and the worker writes exactly the records
accumulated from pages 1..k, in page order; the failing page
contributes nothing. -/
theorem C5_transport_error_keeps_prior_pages
    (listing : String → ListingFetch) (detail : String → DetailFetch)
    (year month mn : String) (k : Nat)
    (hm : month_mapping month = some mn)
    (hgood : ∀ i, i < k →
      (pageOut listing detail month mn year (1 + i)).1 ≠ []
      ∧ (pageOut listing detail month mn year (1 + i)).2 = true)
    (hfail : listing (fullUrl year mn month (toString (1 + k)))
        = ListingFetch.exn
      ∨ ∃ code pg, listing (fullUrl year mn month (toString (1 + k)))
          = ListingFetch.resp code pg ∧ code ≠ 200) :
    fetch_and_save_cve listing detail (k + 1) year month
      = some (writeCsv year month (((List.range k).map
          (fun i =>
            (pageOut listing detail month mn year (1 + i)).1)).flatten))
    := by
  have hempty : (pageOut listing detail month mn year (1 + k)).1 = [] := by
    unfold pageOut
    rw [page_transport_error listing detail BASE_URL month mn year
      (toString (1 + k)) hfail]
  have hrun := loop_run listing detail month mn year k 0 1 [] hgood hempty
  rw [Nat.zero_add] at hrun
  rw [fetch_eq listing detail (k + 1) year month mn hm, hrun]
  rfl

/-- Witness for C5: page 1 yields the fragment-A record with a Next
link, the fetch of page 2 raises; the worker writes the page-1 record
alone. -/
theorem C5_transport_error_witness :
    fetch_and_save_cve c5Listing scenarioDetail 2 "2024" "March"
      = some (writeCsv "2024" "March" (((List.range 1).map
          (fun i =>
            (pageOut c5Listing scenarioDetail "March" "03" "2024"
              (1 + i)).1)).flatten)) :=
  C5_transport_error_keeps_prior_pages c5Listing scenarioDetail
    "2024" "March" "03" 1 rfl
    (fun i hi => by
      have h0 : i = 0 := Nat.lt_one_iff.mp hi
      subst h0
      exact ⟨by decide, by decide⟩)
    (Or.inl rfl)

/-- C6: a unit whose page loop finishes with an empty accumulated
record list produces no output artifact: the sink is guarded by the
non-emptiness check, so no empty file is ever written. -/
theorem C6_empty_unit_writes_nothing (listing : String → ListingFetch)
    (detail : String → DetailFetch) (year month mn : String) (fuel : Nat)
    (hm : month_mapping month = some mn)
    (hl : loop listing detail month mn year fuel 1 [] = some []) :
    fetch_and_save_cve listing detail fuel year month = some none := by
  rw [fetch_eq listing detail fuel year month mn hm, hl]
  rfl

/-- Witness for C6: the first page of the unit yields zero records, the
worker completes, and no file is written. -/
theorem C6_empty_unit_witness :
    fetch_and_save_cve (fun _ => ListingFetch.resp 200 ⟨[], false⟩)
      scenarioDetail 1 "2024" "March" = some none :=
  C6_empty_unit_writes_nothing (fun _ => ListingFetch.resp 200 ⟨[], false⟩)
    scenarioDetail "2024" "March" "03" 1 rfl rfl

/-- C7: the enricher returns the sentinel "N/A" — and, being a total
function, never propagates a failure to the owning unit — whenever the
detail fetch raises a transport exception, answers with a non-2xx
status, the container div is missing, or the label span is missing. -/
theorem C7_enricher_sentinel (detail : String → DetailFetch) (url : String)
    (h : detail url = DetailFetch.exn
      ∨ ∃ code page, detail url = DetailFetch.resp code page
        ∧ (code ≠ 200 ∨ page.container = none
           ∨ ∃ d, page.container = some d ∧ d.span = none)) :
    get_cve_type detail url = "N/A" := by
  unfold get_cve_type
  rcases h with h | ⟨code, page, hresp, hcase⟩
  · rw [h]
  · rw [hresp]
    by_cases hcode : code = 200
    · subst hcode
      rcases hcase with hc | hc | ⟨d, hd, hs⟩
      · exact absurd rfl hc
      · simp [hc]
      · simp [hd, hs]
    · simp [hcode]

/-- Witness for C7: a raising fetch and a missing label span both yield
the sentinel. -/
theorem C7_enricher_sentinel_witness :
    get_cve_type (fun _ => DetailFetch.exn)
      "https://www.cvedetails.com/cve/CVE-2024-1002/" = "N/A"
    ∧ get_cve_type scenarioDetail
      "https://www.cvedetails.com/cve/CVE-2024-1003/" = "N/A" :=
  ⟨C7_enricher_sentinel (fun _ => DetailFetch.exn)
      "https://www.cvedetails.com/cve/CVE-2024-1002/" (Or.inl rfl),
   C7_enricher_sentinel scenarioDetail
      "https://www.cvedetails.com/cve/CVE-2024-1003/"
      (Or.inr ⟨200, ⟨some ⟨none⟩⟩, rfl,
        Or.inr (Or.inr ⟨⟨none⟩, rfl, rfl⟩)⟩)⟩

/-- C8: if the source truly has P pages for the unit (pages 1..P return
records, every later page returns none), the page loop terminates
within P + 1 listing fetches: fuel P + 1 — one unit per fetch — already
yields a result.  No assumption is made on the Next-link signal, so
this holds in particular when the continuation signal never becomes
false. -/
theorem C8_terminates_within_P_plus_1 (listing : String → ListingFetch)
    (detail : String → DetailFetch) (year month mn : String) (P : Nat)
    (hgood : ∀ i, i < P →
      (pageOut listing detail month mn year (1 + i)).1 ≠ [])
    (hafter : ∀ j, P < j → (pageOut listing detail month mn year j).1 = []) :
    ∃ rs, loop listing detail month mn year (P + 1) 1 [] = some rs := by
  have h := loop_term listing detail month mn year P 0 1 []
    (hafter (1 + P) (by omega))
  simpa using h

/-- Witness for C8 with P = 0: every page is empty while the page
markup keeps a Next link, and the loop finishes after one fetch. -/
theorem C8_terminates_witness :
    ∃ rs, loop (fun _ => ListingFetch.resp 200 ⟨[], true⟩) scenarioDetail
      "March" "03" "2024" 1 1 [] = some rs :=
  C8_terminates_within_P_plus_1 (fun _ => ListingFetch.resp 200 ⟨[], true⟩)
    scenarioDetail "2024" "March" "03" 0
    (fun i hi => absurd hi (Nat.not_lt_zero i))
    (fun j hj => rfl)

/-- C9 counterexample: the header row the sink writes is the record
dict key list — CVE ID, CVE_type, Description, Max CVSS, EPSS Score,
Published, Updated — which differs from the column list the claim
names. -/
theorem C9_counterexample :
    (writeCsv "2024" "March" [sampleRecord]).map CsvFile.header
      = some recordKeys
    ∧ recordKeys ≠ ["CVE ID", "CVE type", "Description",
        "Max severity score", "probability score", "Published date",
        "Updated date"] :=
  ⟨rfl, by decide⟩

/-- C9 (amended): every output artifact is a comma-delimited UTF-8 CSV
file named CVE_{year}_{month}.csv under the storage directory, with a
header row whose columns are exactly the record dict keys: CVE ID,
CVE_type, Description, Max CVSS, EPSS Score, Published, Updated. -/
theorem C9_header_columns (year month : String) (records : List Record)
    (f : CsvFile) (h : writeCsv year month records = some f) :
    f.header = recordKeys ∧ f.dir = "storage"
      ∧ f.filename = "CVE_" ++ year ++ "_" ++ month ++ ".csv" := by
  cases records with
  | nil => simp [writeCsv] at h
  | cons r rs =>
      simp only [writeCsv] at h
      injection h with h
      subst h
      exact ⟨rfl, rfl, rfl⟩

/-- Witness for C9 (amended) on the concrete March 2024 artifact. -/
theorem C9_header_columns_witness :
    sampleCsv.header = recordKeys ∧ sampleCsv.dir = "storage"
      ∧ sampleCsv.filename = "CVE_" ++ "2024" ++ "_" ++ "March" ++ ".csv" :=
  C9_header_columns "2024" "March" [sampleRecord] sampleCsv (by decide)

/-- C10: `process_single_page` never reads its `url` argument and
depends on the listing oracle only through the URL it builds itself
from the module base URL, the month fields, the year and the page
number: two calls differing only in `url`, with equal external
responses at that built URL, return identical results. -/
theorem C10_url_argument_ignored (listing listing' : String → ListingFetch)
    (detail : String → DetailFetch)
    (url url' month_text month_num year page_number : String)
    (h : listing (fullUrl year month_num month_text page_number)
       = listing' (fullUrl year month_num month_text page_number)) :
    process_single_page listing detail url month_text month_num year
      page_number
    = process_single_page listing' detail url' month_text month_num year
      page_number := by
  unfold process_single_page
  rw [h]

/-- Witness for C10: the page-1 result of the unit does not change when
the `url` argument is replaced by an arbitrary string. -/
theorem C10_url_argument_ignored_witness :
    process_single_page c5Listing scenarioDetail BASE_URL "March" "03"
      "2024" "1"
    = process_single_page c5Listing scenarioDetail "ignored-url" "March"
      "03" "2024" "1" :=
  C10_url_argument_ignored c5Listing c5Listing scenarioDetail BASE_URL
    "ignored-url" "March" "03" "2024" "1" rfl
